import Mathlib

/-!
Verification of the spraak_demo control/observability core.

This file gives a shallow embedding, in Lean 4, of the parts of the code
relevant to the session lifecycle, the webhook ingester, the event
emitters and store, the provider error classifier, the per-call Observer
and the hangup control endpoint, and proves or refutes the specified
properties about them.

Modelling conventions:
* UTC timestamps are modelled as natural numbers (milliseconds); the
  ambient clock `datetime.now` / `time.time` becomes an explicit `now`
  argument threaded through the operations.
* Python dictionaries that preserve insertion order are modelled as lists
  in insertion order.
* `uuid.uuid4` session ids are modelled by a fresh-id counter.
* Fallible parsing that the relevant code paths never exercise (e.g. ISO
  timestamp parsing of a timestamp the same program produced) is elided;
  the fields flow through unchanged.
-/

namespace Spraak

/-- `SessionState` from `control_plane/session.py` (`class SessionState`). -/
inductive SessionState where
  | created
  | dialing
  | ringing
  | inbound_ringing
  | connected
  | ending
  | ended
deriving DecidableEq, Repr

/-- String value of each state, as in the Python enum. -/
def SessionState.value : SessionState → String
  | .created => "created"
  | .dialing => "dialing"
  | .ringing => "ringing"
  | .inbound_ringing => "inbound_ringing"
  | .connected => "connected"
  | .ending => "ending"
  | .ended => "ended"

/-- `Session` dataclass from `control_plane/session.py`. -/
structure Session where
  session_id : String
  state : SessionState
  direction : String
  created_at : Nat
  livekit_room : Option String := none
  livekit_participant : Option String := none
  caller_number : Option String := none
  callee_number : Option String := none
  ended_at : Option Nat := none
  end_reason : Option String := none
deriving DecidableEq, Repr

/-- `Session.transition_to` from `control_plane/session.py`.  The Python
method stores `new_state` into `self.state` and returns the previous
state; we return the pair (previous state, updated session). -/
def Session.transition_to (s : Session) (new_state : SessionState) :
    SessionState × Session :=
  (s.state, { s with state := new_state })

/-- `Session.end` from `control_plane/session.py`: transitions through
`ending` to `ended`, then stamps `ended_at` with the current time and
stores the reason.  (`end` is a Lean keyword, hence `endSession`.) -/
def Session.endSession (s : Session) (reason : String) (now : Nat) : Session :=
  let s1 := (s.transition_to .ending).2
  let s2 := (s1.transition_to .ended).2
  { s2 with ended_at := some now, end_reason := some reason }

/-- `Session.is_terminal` from `control_plane/session.py`. -/
def Session.is_terminal (s : Session) : Bool :=
  s.state = SessionState.ended

/-- Modelled from the spec's state DAG (§3): `b` is strictly later than
`a` along `created→dialing→ringing→connected`, `inbound_ringing→connected`,
`connected→ending→ended`.  This definition formalises the *claim's*
phrase "strictly later along the DAG"; it is not code of the repository
(the code has no such check, which is what the claim is tested against). -/
def specDagStrictlyLater (a b : SessionState) : Bool :=
  match a, b with
  | .created, .dialing | .created, .ringing | .created, .connected
  | .created, .ending | .created, .ended => true
  | .dialing, .ringing | .dialing, .connected | .dialing, .ending
  | .dialing, .ended => true
  | .ringing, .connected | .ringing, .ending | .ringing, .ended => true
  | .inbound_ringing, .connected | .inbound_ringing, .ending
  | .inbound_ringing, .ended => true
  | .connected, .ending | .connected, .ended => true
  | .ending, .ended => true
  | _, _ => false

/-- A concrete session used by closed counterexample statements. -/
def exampleEndedSession : Session :=
  { session_id := "sess_demo", state := .ended, direction := "inbound",
    created_at := 0, ended_at := some 5, end_reason := some "room_finished" }

/-- A concrete connected session used by closed counterexample statements. -/
def exampleConnectedSession : Session :=
  { session_id := "sess_demo2", state := .connected, direction := "inbound",
    created_at := 0 }

/-! ### String helpers (Python `in`, `str.lower`, `str.startswith`) -/

/-- Python's `needle in hay` on lists of characters: `needle` occurs as a
contiguous sublist of `hay`. -/
def charSubList (needle : List Char) : List Char → Bool
  | [] => needle.isEmpty
  | c :: t => needle.isPrefixOf (c :: t) || charSubList needle t

/-- Python's `needle in hay` for strings. -/
def strIn (needle hay : String) : Bool :=
  charSubList needle.data hay.data

/-- Python's `str.lower()` (ASCII case folding, which is all the error
matching needs), written over the character list so that it evaluates
inside the kernel. -/
def strLower (s : String) : String :=
  String.mk (s.data.map (fun c =>
    if c.toNat ≥ 65 && c.toNat ≤ 90 then Char.ofNat (c.toNat + 32) else c))

/-- Python's `str.startswith(p)`. -/
def strStartsWith (s p : String) : Bool :=
  p.data.isPrefixOf s.data

/-- Python's `str.strip()`: drop leading and trailing whitespace. -/
def strStrip (s : String) : String :=
  String.mk
    (((s.data.dropWhile Char.isWhitespace).reverse.dropWhile
        Char.isWhitespace).reverse)

/-! ### Provider error classifier (`control_plane/errors.py`) -/

/- `ProviderErrorCategory` constants from `control_plane/errors.py`. -/
namespace ProviderErrorCategory

def AUTH_FAILED : String := "provider.auth_failed"
def MISCONFIGURED : String := "provider.misconfigured"
def NETWORK_ERROR : String := "provider.network_error"
def BUSY : String := "call.busy"
def NO_ANSWER : String := "call.no_answer"
def REJECTED : String := "call.rejected"
def FAILED : String := "call.failed"
def RATE_LIMITED : String := "provider.rate_limited"
def CAPACITY_LIMITED : String := "provider.capacity_limited"
def UNKNOWN_ERROR : String := "provider.unknown_error"

end ProviderErrorCategory

/-- The closed ten-element category set of §4.6. -/
def providerCategories : List String :=
  [ProviderErrorCategory.AUTH_FAILED, ProviderErrorCategory.MISCONFIGURED,
   ProviderErrorCategory.NETWORK_ERROR, ProviderErrorCategory.BUSY,
   ProviderErrorCategory.NO_ANSWER, ProviderErrorCategory.REJECTED,
   ProviderErrorCategory.FAILED, ProviderErrorCategory.RATE_LIMITED,
   ProviderErrorCategory.CAPACITY_LIMITED, ProviderErrorCategory.UNKNOWN_ERROR]

/-- `ProviderErrorHandler.classify_error` from `control_plane/errors.py`.
The input is the error's message (`str(error)`); the cascade of
case-insensitive substring checks is reproduced in the code's order:
auth, then config, then network, then busy, then no-answer, then
rejected, then rate-limit, then capacity, else unknown. -/
def classify_error (error : String) : String :=
  let error_str := strLower error
  if strIn "auth" error_str || strIn "unauthorized" error_str
      || strIn "401" error_str then
    ProviderErrorCategory.AUTH_FAILED
  else if strIn "config" error_str || strIn "misconfigured" error_str then
    ProviderErrorCategory.MISCONFIGURED
  else if strIn "network" error_str || strIn "timeout" error_str
      || strIn "connection" error_str then
    ProviderErrorCategory.NETWORK_ERROR
  else if strIn "busy" error_str || strIn "486" error_str then
    ProviderErrorCategory.BUSY
  else if strIn "no answer" error_str || strIn "noanswer" error_str
      || strIn "480" error_str then
    ProviderErrorCategory.NO_ANSWER
  else if strIn "rejected" error_str || strIn "reject" error_str
      || strIn "603" error_str then
    ProviderErrorCategory.REJECTED
  else if strIn "rate limit" error_str || strIn "429" error_str
      || strIn "throttle" error_str then
    ProviderErrorCategory.RATE_LIMITED
  else if strIn "capacity" error_str || strIn "503" error_str then
    ProviderErrorCategory.CAPACITY_LIMITED
  else
    ProviderErrorCategory.UNKNOWN_ERROR

/-- Modelled from the spec (§4.6 cascade order, which the claim quotes):
auth/unauthorized/401, then timeout/network/connection, then 486/busy,
then 480/no answer, then 603/reject, then 429/rate limit/throttle, then
503/capacity, then config/misconfigured, else unknown.  Used only to
compare the claim's reference cascade with the code's. -/
def classifyErrorSpecOrder (error : String) : String :=
  let error_str := strLower error
  if strIn "auth" error_str || strIn "unauthorized" error_str
      || strIn "401" error_str then
    ProviderErrorCategory.AUTH_FAILED
  else if strIn "timeout" error_str || strIn "network" error_str
      || strIn "connection" error_str then
    ProviderErrorCategory.NETWORK_ERROR
  else if strIn "486" error_str || strIn "busy" error_str then
    ProviderErrorCategory.BUSY
  else if strIn "480" error_str || strIn "no answer" error_str then
    ProviderErrorCategory.NO_ANSWER
  else if strIn "603" error_str || strIn "reject" error_str then
    ProviderErrorCategory.REJECTED
  else if strIn "429" error_str || strIn "rate limit" error_str
      || strIn "throttle" error_str then
    ProviderErrorCategory.RATE_LIMITED
  else if strIn "503" error_str || strIn "capacity" error_str then
    ProviderErrorCategory.CAPACITY_LIMITED
  else if strIn "config" error_str || strIn "misconfigured" error_str then
    ProviderErrorCategory.MISCONFIGURED
  else
    ProviderErrorCategory.UNKNOWN_ERROR

/-! ### Event envelope, emitters and store
(`observability/events.py`, `observability/event_store.py`,
`control_plane/events.py`) -/

/-- The `pii` block of the OBS-00 envelope. -/
structure PiiBlock where
  contains_pii : Bool
  fields : List String
  handling : String
deriving DecidableEq, Repr

/-- `DEFAULT_PII` from `observability/events.py`. -/
def DEFAULT_PII : PiiBlock :=
  { contains_pii := false, fields := [], handling := "none" }

/-- The event record built by `EventEmitter.emit`: the seven envelope
fields plus the keyword-argument payload.  `latency_ms` is kept as a
dedicated optional numeric payload field (the only payload field the
emitters treat specially); all other payload fields are modelled as an
ordered string-keyed bag. -/
structure ObsRecord where
  ts : Nat
  session_id : String
  component : String
  event_type : String
  severity : String
  correlation_id : String
  pii : PiiBlock
  latency_ms : Option Nat := none
  extra : List (String × String) := []
deriving DecidableEq, Repr

/-- `EventStore` from `observability/event_store.py`: a bounded FIFO
(`deque(maxlen=max_events)`) of stored events.  `StoredEvent` keeps the
same envelope fields plus the payload bag, so it is modelled by the same
record type. -/
structure EventStore where
  max_events : Nat := 10000
  events : List ObsRecord := []
deriving Repr

/-- `EventStore.store`: append; the deque drops the oldest element when
full. -/
def EventStore.store (st : EventStore) (e : ObsRecord) : EventStore :=
  let es := st.events ++ [e]
  { st with
    events := if st.max_events < es.length
              then es.drop (es.length - st.max_events) else es }

/-- The filter part of `EventStore.query` applied to one stored event
(all filters are AND; timestamp bounds are inclusive). -/
def queryMatches (session_id event_type component : Option String)
    (since until_ : Option Nat) (e : ObsRecord) : Bool :=
  (match session_id with | none => true | some sid => e.session_id = sid) &&
  (match event_type with | none => true | some ty => e.event_type = ty) &&
  (match component with | none => true | some c => e.component = c) &&
  (match since with | none => true | some t => t ≤ e.ts) &&
  (match until_ with | none => true | some t => e.ts ≤ t)

/-- `EventStore.query` from `observability/event_store.py`: iterate the
ring oldest-first, keep events passing every filter, stop once `limit`
results are collected.  (Python treats `limit=0` as falsy, i.e. as no
limit, so `some 0` imposes no bound.) -/
def EventStore.query (st : EventStore)
    (session_id : Option String := none)
    (event_type : Option String := none)
    (component : Option String := none)
    (since : Option Nat := none)
    (until_ : Option Nat := none)
    (limit : Option Nat := none) : List ObsRecord :=
  let matched := st.events.filter
    (queryMatches session_id event_type component since until_)
  match limit with
  | none => matched
  | some n => if n = 0 then matched else matched.take n

/-- Environment read by `observability/events.py` when rendering:
whether stdout is a TTY and the `NO_COLOR` / `FORCE_COLOR` variables
(`true` means the variable is set to `1`/`true`/`yes`). -/
structure EmitEnv where
  is_tty : Bool
  no_color : Bool
  force_color : Bool
deriving DecidableEq, Repr

/-- ANSI prefix `EventEmitter.ORANGE` from `observability/events.py`. -/
def ORANGE : String := "\x1b[38;5;208m"

/-- ANSI suffix `EventEmitter.RESET` from `observability/events.py`. -/
def RESET : String := "\x1b[0m"

/-- The `use_color` expression in `observability/events.py`:
`(is_tty or force_color or True) and not no_color` — reproduced with the
literal `or True` of the source. -/
def useColor (env : EmitEnv) : Bool :=
  (env.is_tty || env.force_color || true) && !env.no_color

/-- Render a JSON string value (escaping elided: the fields involved in
the claims contain no characters needing escapes). -/
def jsonStr (s : String) : String := "\"" ++ s ++ "\""

/-- Render the `pii` block as JSON. -/
def renderPii (p : PiiBlock) : String :=
  "\x7b\"contains_pii\": " ++ (if p.contains_pii then "true" else "false")
    ++ ", \"fields\": [" ++ String.intercalate ", " (p.fields.map jsonStr)
    ++ "], \"handling\": " ++ jsonStr p.handling ++ "\x7d"

/-- `json.dumps(event)` on the record built by `emit`: one JSON object in
insertion order — the seven envelope fields, then the payload
(`latency_ms` first when present, then the remaining keyword fields, in
the order used at the call sites modelled here). -/
def renderJson (r : ObsRecord) : String :=
  "\x7b\"ts\": " ++ toString r.ts
    ++ ", \"session_id\": " ++ jsonStr r.session_id
    ++ ", \"component\": " ++ jsonStr r.component
    ++ ", \"event_type\": " ++ jsonStr r.event_type
    ++ ", \"severity\": " ++ jsonStr r.severity
    ++ ", \"correlation_id\": " ++ jsonStr r.correlation_id
    ++ ", \"pii\": " ++ renderPii r.pii
    ++ (match r.latency_ms with
        | none => ""
        | some n => ", \"latency_ms\": " ++ toString n)
    ++ String.join (r.extra.map (fun kv => ", " ++ jsonStr kv.1 ++ ": " ++ kv.2))
    ++ "\x7d"

/-- The literal text the regex searches for: the `latency_ms` key with
the separator produced by `json.dumps`. -/
def msPattern : List Char := "\"latency_ms\": ".data

/-- Split a leading run of digits off a character list. -/
def takeDigits : List Char → List Char × List Char
  | [] => ([], [])
  | c :: t =>
    if c.isDigit then
      let p := takeDigits t
      (c :: p.1, p.2)
    else ([], c :: t)

/-- The `re.sub` post-processing of `observability/events.py` on the
serialised line: find `"latency_ms": <digits>` and substitute the digit
group by `repl`.  The rendered line contains at most one occurrence, so
replacing the first occurrence models `re.sub` exactly. -/
def rewriteLatencyFirst (repl : List Char → List Char) :
    List Char → List Char
  | [] => []
  | c :: t =>
    if msPattern.isPrefixOf (c :: t) then
      let rest := List.drop msPattern.length (c :: t)
      let p := takeDigits rest
      msPattern ++ repl p.1 ++ p.2
    else c :: rewriteLatencyFirst repl t

/-- The replacement applied to the digit group: with colour,
`ORANGE <digits> ms RESET`; without, `<digits> ms`. -/
def latencyRepl (env : EmitEnv) (digits : List Char) : List Char :=
  if useColor env then
    ORANGE.data ++ digits ++ " ms".data ++ RESET.data
  else
    digits ++ " ms".data

/-- The line `EventEmitter.emit` (observability copy) writes to stdout:
the serialised record, post-processed when a `latency_ms` payload field
is present. -/
def sinkLine (env : EmitEnv) (r : ObsRecord) : String :=
  let base := renderJson r
  match r.latency_ms with
  | none => base
  | some _ => String.mk (rewriteLatencyFirst (latencyRepl env) base.data)

/-- The record `EventEmitter.emit` builds before serialising: stamped
`ts`, `correlation_id` defaulted to `session_id`, `pii` defaulted to
`DEFAULT_PII`. -/
def emitRecord (component : String) (now : Nat)
    (event_type session_id severity : String)
    (correlation_id : Option String) (pii : Option PiiBlock)
    (latency_ms : Option Nat) (extra : List (String × String)) : ObsRecord :=
  { ts := now, session_id := session_id, component := component,
    event_type := event_type, severity := severity,
    correlation_id := correlation_id.getD session_id,
    pii := pii.getD DEFAULT_PII,
    latency_ms := latency_ms, extra := extra }

/-- `EventEmitter.emit` from `observability/events.py`: build the
record, write one (possibly post-processed) line to stdout, and store
the original record in the event store.  Returns the written line and
the updated store. -/
def obsEmit (env : EmitEnv) (store : EventStore) (component : String)
    (now : Nat) (event_type session_id severity : String)
    (correlation_id : Option String := none)
    (pii : Option PiiBlock := none)
    (latency_ms : Option Nat := none)
    (extra : List (String × String) := []) : String × EventStore :=
  let record := emitRecord component now event_type session_id severity
    correlation_id pii latency_ms extra
  (sinkLine env record, store.store record)

/-- `EventEmitter.emit` from `control_plane/events.py` (the copy the
webhook ingester's `control_plane_emitter` is built from): builds the
same envelope and writes one JSON line to stdout — and nothing else; in
particular it never touches the event store. -/
def cpEmitLine (now : Nat) (event_type session_id severity : String)
    (correlation_id : Option String := none)
    (pii : Option PiiBlock := none)
    (extra : List (String × String) := []) : String :=
  renderJson
    { ts := now, session_id := session_id, component := "control_plane",
      event_type := event_type, severity := severity,
      correlation_id := correlation_id.getD session_id,
      pii := pii.getD DEFAULT_PII,
      latency_ms := none, extra := extra }

/-- A world holding the structured sink (stdout lines, newest last) and
the shared event store, for stating which emitter feeds which. -/
structure EmitWorld where
  stdout : List String := []
  store : EventStore := {}
deriving Repr

/-- An emit through the observability emitter, acting on the world. -/
def obsEmitWorld (env : EmitEnv) (w : EmitWorld) (component : String)
    (now : Nat) (event_type session_id severity : String)
    (correlation_id : Option String := none)
    (pii : Option PiiBlock := none)
    (latency_ms : Option Nat := none)
    (extra : List (String × String) := []) : EmitWorld :=
  let r := obsEmit env w.store component now event_type session_id severity
    correlation_id pii latency_ms extra
  { stdout := w.stdout ++ [r.1], store := r.2 }

/-- An emit through the control-plane emitter, acting on the world: the
line goes to stdout; the store is not part of `control_plane/events.py`
and is left untouched. -/
def cpEmitWorld (w : EmitWorld) (now : Nat)
    (event_type session_id severity : String)
    (correlation_id : Option String := none)
    (pii : Option PiiBlock := none)
    (extra : List (String × String) := []) : EmitWorld :=
  { w with stdout := w.stdout ++
      [cpEmitLine now event_type session_id severity correlation_id pii extra] }

/-! ### Webhook ingester (`control_plane/webhook_handler.py`)

The ingester emits through `control_plane_emitter`
(`control_plane/events.py`); for the scenario claims we track each
emitted event as a structured record (event type plus the payload pieces
the taxonomy helpers set). -/

/-- One event emitted by the control-plane taxonomy helpers. -/
structure CPEvent where
  event_type : String
  session_id : String
  reason : Option String := none
  from_state : Option String := none
  to_state : Option String := none
  direction : Option String := none
  room : Option String := none
  participant : Option String := none
deriving DecidableEq, Repr

/-- `SessionManager` state: sessions in insertion order (Python dict
preserves insertion order) plus a fresh-id counter standing in for
`uuid.uuid4`. -/
structure ManagerState where
  sessions : List Session := []
  next_id : Nat := 0
deriving Repr

/-- `SessionManager.create_session`: fresh opaque id, initial state per
direction (`inbound → inbound_ringing`, otherwise `created`). -/
def ManagerState.create_session (m : ManagerState) (direction : String)
    (now : Nat) (caller_number : Option String := none)
    (callee_number : Option String := none) : Session × ManagerState :=
  let sid := "sess_" ++ toString m.next_id
  let s : Session :=
    { session_id := sid,
      state := if direction = "inbound" then .inbound_ringing else .created,
      direction := direction, created_at := now,
      caller_number := caller_number, callee_number := callee_number }
  (s, { sessions := m.sessions ++ [s], next_id := m.next_id + 1 })

/-- `SessionManager.get_session` (dict lookup by id). -/
def ManagerState.get_session (m : ManagerState) (sid : String) :
    Option Session :=
  m.sessions.find? (fun s => s.session_id = sid)

/-- `SessionManager.get_session_by_room`: linear scan in insertion
order. -/
def ManagerState.get_session_by_room (m : ManagerState) (room : String) :
    Option Session :=
  m.sessions.find? (fun s => s.livekit_room = some room)

/-- In-place mutation of the session object found in the registry,
modelled by rewriting the entry with the matching id. -/
def ManagerState.update (m : ManagerState) (sid : String)
    (f : Session → Session) : ManagerState :=
  { m with sessions :=
      m.sessions.map (fun s => if s.session_id = sid then f s else s) }

/-- `SessionManager.list_sessions` with its optional AND-ed filters. -/
def ManagerState.list_sessions (m : ManagerState)
    (state : Option SessionState := none)
    (direction : Option String := none) : List Session :=
  (m.sessions.filter
      (fun s => match state with | none => true | some st => s.state = st)).filter
    (fun s => match direction with | none => true | some d => s.direction = d)

/-- Webhook handler state: the shared registry plus the stream of events
emitted via `control_plane_emitter` (oldest first). -/
structure WHState where
  manager : ManagerState := {}
  emitted : List CPEvent := []
deriving Repr

/-- Append one emitted event. -/
def WHState.emit (st : WHState) (e : CPEvent) : WHState :=
  { st with emitted := st.emitted ++ [e] }

/-- Mutate one session object inside the shared registry. -/
def WHState.updateSession (st : WHState) (sid : String)
    (f : Session → Session) : WHState :=
  { st with manager := st.manager.update sid f }

/-- `WebhookHandler._handle_room_started`. -/
def handleRoomStarted (st : WHState) (now : Nat)
    (room_name : Option String) : WHState :=
  match room_name with
  | none => st
  | some rn =>
    match st.manager.get_session_by_room rn with
    | none =>
      let p := st.manager.create_session "inbound" now
      let mgr :=
        p.2.update p.1.session_id (fun s => { s with livekit_room := some rn })
      let st := { st with manager := mgr }
      let st := st.emit
        { event_type := "livekit.room.created",
          session_id := p.1.session_id, room := some rn }
      st.emit
        { event_type := "call.started", session_id := p.1.session_id,
          direction := some "inbound", room := some rn }
    | some s =>
      st.emit
        { event_type := "livekit.room.created",
          session_id := s.session_id, room := some rn }

/-- `WebhookHandler._handle_participant_joined`.  `meta_phone` is the
`phone_number` key of the participant metadata JSON when present
(`json.loads` of the metadata string is modelled as this pre-parsed
field). -/
def handleParticipantJoined (st : WHState) (now : Nat)
    (room_name participant_sid : Option String)
    (identity : String) (meta_phone : Option String) : WHState :=
  match room_name, participant_sid with
  | some rn, some psid =>
    -- get or create (defensive) the session for the room
    let stS : WHState × Session :=
      match st.manager.get_session_by_room rn with
      | some s => (st, s)
      | none =>
        let p := st.manager.create_session "inbound" now
        let s := { p.1 with livekit_room := some rn }
        let mgr :=
          p.2.update p.1.session_id (fun q => { q with livekit_room := some rn })
        (WHState.emit { st with manager := mgr }
          { event_type := "call.started", session_id := s.session_id,
            direction := some "inbound", room := some rn }, s)
    let st := stS.1
    let s := stS.2
    let st :=
      if strStartsWith identity "sip:" || strIn "phone" (strLower identity) then
        if s.livekit_participant = none then
          let caller := match meta_phone with
            | some ph => some ph
            | none => s.caller_number
          let st := st.updateSession s.session_id
            (fun q =>
              { q with livekit_participant := some psid,
                       caller_number := caller })
          if s.state = SessionState.inbound_ringing then
            let st := st.updateSession s.session_id
              (fun q => (q.transition_to .connected).2)
            let st := st.emit
              { event_type := "session.state_changed",
                session_id := s.session_id,
                from_state := some SessionState.inbound_ringing.value,
                to_state := some SessionState.connected.value }
            st.emit
              { event_type := "call.answered",
                session_id := s.session_id, room := some rn,
                participant := some psid }
          else st
        else st
      else st
    st.emit
      { event_type := "livekit.participant.joined",
        session_id := s.session_id, room := some rn,
        participant := some psid }
  | _, _ => st

/-- `WebhookHandler._handle_participant_left`. -/
def handleParticipantLeft (st : WHState) (now : Nat)
    (room_name participant_sid : Option String) : WHState :=
  match room_name, participant_sid with
  | some rn, some psid =>
    match st.manager.get_session_by_room rn with
    | none => st
    | some s =>
      let st := st.emit
        { event_type := "livekit.participant.left",
          session_id := s.session_id, room := some rn,
          participant := some psid }
      if s.livekit_participant = some psid then
        if s.is_terminal then st
        else
          let st := st.updateSession s.session_id
            (fun q => q.endSession "participant_left" now)
          st.emit
            { event_type := "call.ended", session_id := s.session_id,
              reason := some "participant_left", room := some rn,
              participant := some psid }
      else st
  | _, _ => st

/-- `WebhookHandler._handle_room_finished`. -/
def handleRoomFinished (st : WHState) (now : Nat)
    (room_name : Option String) : WHState :=
  match room_name with
  | none => st
  | some rn =>
    match st.manager.get_session_by_room rn with
    | none => st
    | some s =>
      if s.is_terminal then st
      else
        let st := st.updateSession s.session_id
          (fun q => q.endSession "room_finished" now)
        st.emit
          { event_type := "call.ended", session_id := s.session_id,
            reason := some "room_finished", room := some rn }

/-- The inbound happy-path webhook sequence of scenario §8.1, fed in
order to the handler starting from an empty registry. -/
def inboundScenarioRun : WHState :=
  let st : WHState := {}
  let st := handleRoomStarted st 1 (some "call-abc")
  let st := handleParticipantJoined st 2 (some "call-abc") (some "P1")
    "sip:+31600000001" (some "+31600000001")
  handleParticipantLeft st 3 (some "call-abc") (some "P1")

/-- The event-type order the claim (spec scenario §8.1) expects. -/
def claimedInboundOrder : List String :=
  ["livekit.room.created", "call.started", "livekit.participant.joined",
   "session.state_changed", "call.answered", "livekit.participant.left",
   "call.ended"]

/-! ### Per-call Observer (`voice_pipeline/observability.py`)

The Observer's event handlers run as a single cooperative task; each
handler is modelled as a pure step `state × signal × now → state ×
emitted events`.  Timer *bodies* (async tasks built around `sleep`) are
modelled separately as the action sequence one uncancelled run performs.
Timestamps are milliseconds; `f"turn_{int(now*1000)}"` becomes
`"turn_" ++ toString now`. -/

/-- `SilenceConfig` from `voice_pipeline/observability.py`. -/
structure SilenceConfig where
  processing_delay_ack_ms : Nat := 900
  user_silence_reprompt_ms : Nat := 7000
  user_silence_close_ms : Nat := 14000
deriving DecidableEq, Repr

/-- One event emitted by the Observer through the observability emitter.
Only the fields the claims mention are tracked; the computed
millisecond fields are integers (`int((now - ts) * 1000)`). -/
structure VPEvent where
  event_type : String
  session_id : String
  correlation_id : String
  severity : String := "info"
  cause : Option String := none
  time_to_tts_stop_ms : Option Int := none
  latency_ms : Option Int := none
  transcript_length : Option Nat := none
  language : Option String := none
  kind : Option String := none
  reason : Option String := none
deriving DecidableEq, Repr

/-- The mutable fields of `VoicePipelineObserver` that the handlers
modelled here read or write.  Timer task handles are reduced to whether
a timer is currently scheduled (cancellation is modelled by clearing the
flag; a scheduled body that runs is modelled by `userSilenceTimerBody`
below). -/
structure ObserverState where
  session_id : String
  current_turn_id : Option String := none
  stt_final_emitted_for_turn : Bool := false
  llm_request_ts : Option Nat := none
  current_transcript : Option String := none
  current_llm_response : Option String := none
  agent_state : Option String := none
  user_state : Option String := none
  tts_playing : Bool := false
  barge_in_detected_ts : Option Nat := none
  tts_started_ts : Option Nat := none
  delay_ack_sent_for_turn : Bool := false
  last_agent_prompt_ts : Option Nat := none
  last_user_activity_ts : Option Nat := none
  user_last_audio_ts : Option Nat := none
  processing_timer_armed : Bool := false
  user_silence_timer_armed : Bool := false
deriving DecidableEq, Repr

/-- The input signals the Observer subscribes to (§4.5).  Payloads are
the values the Python handlers extract from the SDK event. -/
inductive ObsSignal where
  | agentStateChanged (state : Option String)
  | userStateChanged (state : Option String)
  | userInputTranscribed (text : String) (language : Option String)
      (delay_ms : Option Nat)
  | userSpeechCommitted (text : String)
  | userStartedSpeaking
  | userStoppedSpeaking
  | agentStartedSpeaking (response_text : Option String)
  | agentStoppedSpeaking (reason : Option String)
  | setLlmResponseText (text : String)
deriving DecidableEq, Repr

/-- `VoicePipelineObserver._new_turn`. -/
def newTurn (st : ObserverState) (now : Nat) : String × ObserverState :=
  let turn_id := "turn_" ++ toString now
  (turn_id,
   { st with current_turn_id := some turn_id,
             stt_final_emitted_for_turn := false,
             delay_ack_sent_for_turn := false })

/-- `VoicePipelineObserver._emit_turn_started`: emits `turn.started`,
stamps `_llm_request_ts`, then emits `llm.request`, all under the
current (or a fresh) turn id. -/
def emitTurnStarted (st : ObserverState) (now : Nat)
    (transcript_length : Nat) : ObserverState × List VPEvent :=
  let p := match st.current_turn_id with
    | some t => (t, st)
    | none => newTurn st now
  let turn_id := p.1
  let st := p.2
  let st := { st with llm_request_ts := some now }
  (st,
   [{ event_type := "turn.started", session_id := st.session_id,
      correlation_id := turn_id, transcript_length := some transcript_length },
    { event_type := "llm.request", session_id := st.session_id,
      correlation_id := turn_id }])

/-- `VoicePipelineObserver._emit_llm_response`: emits `llm.response`
with `latency_ms` measured from `_llm_request_ts` when set, which it
clears. -/
def emitLlmResponse (st : ObserverState) (now : Nat) :
    ObserverState × List VPEvent :=
  let p := match st.current_turn_id with
    | some t => (t, st)
    | none => newTurn st now
  let turn_id := p.1
  let st := p.2
  let lat : Option Int := st.llm_request_ts.map (fun t => (now : Int) - t)
  let st := { st with llm_request_ts := none }
  (st,
   [{ event_type := "llm.response", session_id := st.session_id,
      correlation_id := turn_id, latency_ms := lat }])

/-- `VoicePipelineObserver._emit_stt_final`: at most once per turn. -/
def emitSttFinal (st : ObserverState) (now : Nat) (transcript_length : Nat)
    (language : Option String) (latency_ms : Option Int) :
    ObserverState × List VPEvent :=
  let p := match st.current_turn_id with
    | some t => (t, st)
    | none => newTurn st now
  let turn_id := p.1
  let st := p.2
  if st.stt_final_emitted_for_turn then (st, [])
  else
    ({ st with stt_final_emitted_for_turn := true },
     [{ event_type := "stt.final", session_id := st.session_id,
        correlation_id := turn_id,
        transcript_length := some transcript_length,
        language := language, latency_ms := latency_ms }])

/-- `VoicePipelineObserver._record_user_activity`: stamp the activity
time and cancel the user-silence timer. -/
def recordUserActivity (st : ObserverState) (now : Nat) : ObserverState :=
  { st with last_user_activity_ts := some now,
            user_silence_timer_armed := false }

/-- `_start_user_silence_timer` (the synchronous part): cancel any
previous timer, stamp `_last_agent_prompt_ts`, emit
`silence.timer_started{kind:user}` and schedule the body. -/
def startUserSilenceTimer (st : ObserverState) (now : Nat) :
    ObserverState × List VPEvent :=
  let corr := st.current_turn_id.getD st.session_id
  ({ st with last_agent_prompt_ts := some now,
             user_silence_timer_armed := true },
   [{ event_type := "silence.timer_started", session_id := st.session_id,
      correlation_id := corr, severity := "debug", kind := some "user" }])

/-- `_start_processing_timer` (the synchronous part). -/
def startProcessingTimer (st : ObserverState) : ObserverState × List VPEvent :=
  let corr := st.current_turn_id.getD st.session_id
  ({ st with processing_timer_armed := true },
   [{ event_type := "silence.timer_started", session_id := st.session_id,
      correlation_id := corr, severity := "debug", kind := some "processing" }])

/-- One step of the Observer: dispatch a signal to its handler
(`voice_pipeline/observability.py`), returning the updated state and the
events emitted during the handler, oldest first. -/
def observerStep (st : ObserverState) (now : Nat) (sig : ObsSignal) :
    ObserverState × List VPEvent :=
  match sig with
  | .agentStateChanged state =>
    match state with
    | none => (st, [])
    | some s =>
      let st := { st with agent_state := some s }
      if s = "thinking" then
        let p := newTurn st now
        emitTurnStarted p.2 now 0
      else (st, [])
  | .userStateChanged state =>
    match state with
    | none => (st, [])
    | some s =>
      let st := { st with user_state := some s }
      if s = "speaking" then (recordUserActivity st now, []) else (st, [])
  | .userInputTranscribed text language delay_ms =>
    let text := strStrip text
    let st := recordUserActivity st now
    let st := { st with current_transcript := some text }
    let had_turn := st.current_turn_id.isSome
    let p := emitSttFinal st now text.length language
      (delay_ms.map (fun d => (d : Int)))
    if had_turn then p
    else
      let q := emitTurnStarted p.1 now text.length
      (q.1, p.2 ++ q.2)
  | .userSpeechCommitted text =>
    let p0 := newTurn st now
    let st := recordUserActivity p0.2 now
    let st := { st with current_transcript := some text }
    let p := emitSttFinal st now text.length none none
    let q := emitTurnStarted p.1 now text.length
    (q.1, p.2 ++ q.2)
  | .userStartedSpeaking =>
    let st := recordUserActivity st now
    if st.tts_playing then
      ({ st with barge_in_detected_ts := some now },
       [{ event_type := "barge_in.detected", session_id := st.session_id,
          correlation_id := st.current_turn_id.getD st.session_id }])
    else (st, [])
  | .userStoppedSpeaking =>
    let st := recordUserActivity st now
    ({ st with user_last_audio_ts := some now }, [])
  | .agentStartedSpeaking response_text =>
    let st := { st with tts_playing := true,
                        user_silence_timer_armed := false }
    let p :=
      match response_text with
      | some t =>
        if t ≠ "" then
          let st := { st with current_llm_response := some t }
          if st.llm_request_ts.isSome then emitLlmResponse st now
          else (st, [])
        else (st, [])
      | none => (st, [])
    let st := { p.1 with processing_timer_armed := false,
                         tts_started_ts := some now }
    (st, p.2 ++
      [{ event_type := "tts.started", session_id := st.session_id,
         correlation_id := st.current_turn_id.getD st.session_id }])
  | .agentStoppedSpeaking reason =>
    let st := { st with tts_playing := false }
    let cause := reason.getD "completed"
    let pStop : Option Int × ObserverState :=
      if cause = "barge_in" then
        match st.barge_in_detected_ts with
        | some t => (some ((now : Int) - t),
                     { st with barge_in_detected_ts := none })
        | none => (none, st)
      else (none, st)
    let st := pStop.2
    let lat : Option Int := st.tts_started_ts.map (fun t => (now : Int) - t)
    let st := { st with tts_started_ts :=
                  if st.tts_started_ts.isSome then none else st.tts_started_ts }
    let ev : VPEvent :=
      { event_type := "tts.stopped", session_id := st.session_id,
        correlation_id := st.current_turn_id.getD st.session_id,
        cause := some cause, time_to_tts_stop_ms := pStop.1,
        latency_ms := lat }
    if cause = "completed" then
      let st := { st with last_agent_prompt_ts := some now }
      let p := startProcessingTimer st
      let q := startUserSilenceTimer p.1 now
      (q.1, [ev] ++ p.2 ++ q.2)
    else (st, [ev])
  | .setLlmResponseText text =>
    let st := { st with current_llm_response := some text }
    if st.llm_request_ts.isSome then emitLlmResponse st now
    else (st, [])

/-- Run the Observer over a timestamped signal trace, collecting the
emitted per-session event stream oldest first. -/
def observerRun (st : ObserverState) :
    List (Nat × ObsSignal) → ObserverState × List VPEvent
  | [] => (st, [])
  | (now, sig) :: rest =>
    let p := observerStep st now sig
    let q := observerRun p.1 rest
    (q.1, p.2 ++ q.2)

/-- Initial state of an Observer attached to a session. -/
def initObserver (sid : String) : ObserverState := { session_id := sid }

/-- The subsequence of an event stream restricted to given types. -/
def typesAmong (tys : List String) (evs : List VPEvent) : List String :=
  (evs.filter (fun e => tys.contains e.event_type)).map (fun e => e.event_type)

/-! ### User-silence timer body (VC-02) -/

/-- The externally visible calls an Observer timer run performs, in
order: `session.say(text, ...)`, an event emit, the HTTP hangup request,
`session.aclose()`. -/
inductive ObsAction where
  | say (text : String)
  | emitEvent (e : VPEvent)
  | requestHangup (session_id : String)
  | aclose
deriving DecidableEq, Repr

/-- Outcome of the collaborator calls made during a timer run: whether a
session object is attached, whether `say` succeeds (it is wrapped in
`try/except`), and whether the control-plane hangup request returns 2xx
(`request_hangup` in `voice_pipeline/control_plane_client.py` returns
`True` exactly for a 2xx response). -/
structure TimerEnv where
  session_attached : Bool := true
  say_ok : Bool := true
  hangup_ok : Bool := true
deriving DecidableEq, Repr

/-- `VoicePipelineObserver._is_user_silent_since`. -/
def isUserSilentSince (last_user_activity_ts : Option Nat)
    (since_ts : Nat) : Bool :=
  match last_user_activity_ts with
  | none => true
  | some t => t ≤ since_ts

/-- The Dutch closing phrase of `_close_due_to_user_silence`. -/
def closingPhrase : String := "Oké, ik hoor even niks. Ik hang op. Fijne dag!"

/-- The Dutch reprompt phrase of the user-silence timer. -/
def repromptPhrase : String := "Ben je er nog?"

/-- `VoicePipelineObserver._close_due_to_user_silence`: say the closing
phrase (best effort), emit `call.ended{reason:user_silence_timeout}`,
request hangup from the control plane, and fall back to
`session.aclose()` when the hangup request did not succeed. -/
def closeDueToUserSilence (env : TimerEnv) (session_id corr : String) :
    List ObsAction :=
  (if env.session_attached then [ObsAction.say closingPhrase] else [])
  ++ [ObsAction.emitEvent
        { event_type := "call.ended", session_id := session_id,
          correlation_id := corr, reason := some "user_silence_timeout" },
      ObsAction.requestHangup session_id]
  ++ (if !env.hangup_ok && env.session_attached then [ObsAction.aclose] else [])

/-- The async body scheduled by `_start_user_silence_timer`, as the
sequence of calls one uncancelled run performs.  `t0` is the arm time
(the body reads `_last_agent_prompt_ts = t0` stamped at arm);
`lastActivity` is `_last_user_activity_ts`, constant during the run
because any user activity cancels the task before its next step. -/
def userSilenceTimerBody (cfg : SilenceConfig) (env : TimerEnv)
    (session_id corr : String) (t0 : Nat) (lastActivity : Option Nat) :
    List ObsAction :=
  let reprompt_ms := cfg.user_silence_reprompt_ms
  let close_ms := cfg.user_silence_close_ms
  if close_ms ≤ reprompt_ms then
    -- close-only policy: sleep CLOSE_MS then close if still silent
    if isUserSilentSince lastActivity t0 then
      closeDueToUserSilence env session_id corr
    else []
  else
    -- sleep REPROMPT_MS; if silent, fire + reprompt
    let silentAtReprompt := isUserSilentSince lastActivity t0
    let fired : List ObsAction :=
      if silentAtReprompt then
        [ObsAction.emitEvent
          { event_type := "silence.timer_fired", session_id := session_id,
            correlation_id := corr, kind := some "user" }]
        ++ (if env.session_attached then [ObsAction.say repromptPhrase] else [])
      else []
    -- a successful reprompt updates the "last prompt" timestamp
    let prompt_ts :=
      if silentAtReprompt && env.session_attached && env.say_ok
      then t0 + reprompt_ms else t0
    let remaining_ms := close_ms - reprompt_ms
    if remaining_ms = 0 then fired
    else
      fired ++
        (if isUserSilentSince lastActivity prompt_ts then
          closeDueToUserSilence env session_id corr
        else [])

/-! ### Hangup control endpoint (`control_plane/control_api.py`) -/

/-- State visible to the control API: the shared session registry, the
emit world (stdout + event store, fed through the *observability*
emitter, which this module uses), and the provider calls made. -/
structure ApiState where
  manager : ManagerState := {}
  world : EmitWorld := {}
  deleted_rooms : List String := []
deriving Repr

/-- `hangup_call` from `control_plane/control_api.py`: allocate a
command id, emit `control.command_received`, call the provider's
delete-room with the session id as room name, then either emit
`control.command_applied{result:ok}` and return
`200 {status:"ok"}`, or — when the provider call raises — emit
`control.command_applied{result:error, error_class}` and return
`502 {detail:"hangup_failed"}`.  `provider_ok` is whether
`_delete_room` succeeds; `error_class` the exception class name;
`cmd_ms` the wall-clock milliseconds used for the command id. -/
def hangup_call (env : EmitEnv) (st : ApiState) (session_id : String)
    (now cmd_ms : Nat) (provider_ok : Bool) (error_class : String) :
    (Nat × String) × ApiState :=
  let corr := "cmd_" ++ toString cmd_ms
  let w := obsEmitWorld env st.world "control_plane" now
    "control.command_received" session_id "info" (some corr) none none
    [("command", jsonStr "call.hangup")]
  let st := { st with world := w,
                      deleted_rooms := st.deleted_rooms ++ [session_id] }
  if provider_ok then
    let w := obsEmitWorld env st.world "control_plane" now
      "control.command_applied" session_id "info" (some corr) none none
      [("command", jsonStr "call.hangup"), ("result", jsonStr "ok")]
    ((200, "\x7b\"status\":\"ok\"\x7d"), { st with world := w })
  else
    let w := obsEmitWorld env st.world "control_plane" now
      "control.command_applied" session_id "error" (some corr) none none
      [("command", jsonStr "call.hangup"), ("result", jsonStr "error"),
       ("error_class", jsonStr error_class)]
    ((502, "\x7b\"detail\":\"hangup_failed\"\x7d"), { st with world := w })

/-! ### Concrete fixtures used by the closed statements -/

/-- A record carrying a numeric `latency_ms`, as emitted for
`llm.response`. -/
def latencyExampleRecord : ObsRecord :=
  { ts := 7, session_id := "s1", component := "voice_pipeline",
    event_type := "llm.response", severity := "info",
    correlation_id := "turn_1", pii := DEFAULT_PII, latency_ms := some 12 }

/-- A sink that is not a TTY, with neither `NO_COLOR` nor `FORCE_COLOR`
set — the claimed no-rendering situation. -/
def plainPipeEnv : EmitEnv :=
  { is_tty := false, no_color := false, force_color := false }

/-- The counterexample trace for the turn ordering: the agent state
becomes `thinking` (starting the turn), and the final transcript is
observed afterwards within the same turn. -/
def thinkingFirstTrace : List (Nat × ObsSignal) :=
  [(1000, .agentStateChanged (some "thinking")),
   (2000, .userInputTranscribed "hallo" (some "nl") none)]

/-- The counterexample trace for barge-in: the transport reports
`agent_stopped_speaking{reason:barge_in}` without any user speech having
been observed during TTS playback. -/
def spuriousBargeInTrace : List (Nat × ObsSignal) :=
  [(1000, .agentStartedSpeaking none),
   (1500, .agentStoppedSpeaking (some "barge_in"))]

/-! ## Theorems -/

/-- Claim C1, counterexample: `created` is not strictly later than
`ended` along the spec's DAG, yet `transition_to` applied to an ended
session accepts the request and moves the state backwards to `created`
instead of rejecting it; and a direct transition to `ended` does not set
`ended_at`.  So the transition operation neither rejects non-monotonic
transitions nor updates `ended_at` when moving to `ended`. -/
theorem C1_transition_counterexample :
    specDagStrictlyLater SessionState.ended SessionState.created = false ∧
    (exampleEndedSession.transition_to SessionState.created).2.state
      = SessionState.created ∧
    (exampleEndedSession.transition_to SessionState.created).2
      ≠ exampleEndedSession ∧
    (exampleConnectedSession.transition_to SessionState.ended).2.ended_at
      = none := by
  refine ⟨rfl, rfl, ?_, rfl⟩
  decide

/-- Claim C1, amended: `Session.transition_to` performs no monotonicity
check at all — for every session and every requested state it stores the
new state and returns the previous one, and it never touches `ended_at`
or `end_reason`; `ended_at` (with `end_reason`) is set only by
`Session.end`, which also forces the state to `ended`. -/
theorem C1_transition_unconditional (s : Session) (ns : SessionState)
    (reason : String) (now : Nat) :
    (s.transition_to ns).2.state = ns ∧
    (s.transition_to ns).1 = s.state ∧
    (s.transition_to ns).2.ended_at = s.ended_at ∧
    (s.transition_to ns).2.end_reason = s.end_reason ∧
    (s.endSession reason now).state = SessionState.ended ∧
    (s.endSession reason now).ended_at = some now ∧
    (s.endSession reason now).end_reason = some reason :=
  ⟨rfl, rfl, rfl, rfl, rfl, rfl, rfl⟩

/-- Claim C5, counterexample: `Session.end` is not a no-op on an already
ended session — ending a connected session at time 10 with reason
`participant_left` and then calling `end` again at time 20 with reason
`room_finished` overwrites both `ended_at` and `end_reason`. -/
theorem C5_end_counterexample :
    ((exampleConnectedSession.endSession "participant_left" 10).endSession
        "room_finished" 20).end_reason
      ≠ (exampleConnectedSession.endSession "participant_left" 10).end_reason ∧
    ((exampleConnectedSession.endSession "participant_left" 10).endSession
        "room_finished" 20).ended_at
      ≠ (exampleConnectedSession.endSession "participant_left" 10).ended_at ∧
    (exampleConnectedSession.endSession "participant_left" 10).state
      = SessionState.ended := by
  refine ⟨?_, ?_, rfl⟩ <;> decide

/-- Claim C5, amended: `Session.end` has no already-ended guard; calling
it again on an ended session leaves the state `ended` (so `is_terminal`
stays true and `ended_at` stays non-null) but overwrites `ended_at` with
the new current time and `end_reason` with the new reason.  Callers in
the webhook ingester avoid the re-entry by checking `is_terminal()`
first. -/
theorem C5_end_not_idempotent (s : Session) (_h : s.state = SessionState.ended)
    (reason : String) (now : Nat) :
    (s.endSession reason now).state = SessionState.ended ∧
    (s.endSession reason now).is_terminal = true ∧
    (s.endSession reason now).ended_at = some now ∧
    (s.endSession reason now).end_reason = some reason ∧
    (s.endSession reason now).ended_at ≠ none :=
  ⟨rfl, rfl, rfl, rfl, by simp [Session.endSession]⟩

/-- Witness for C5's amended claim at a concrete already-ended
session. -/
theorem C5_end_not_idempotent_witness :
    (exampleEndedSession.endSession "again" 42).state = SessionState.ended ∧
    (exampleEndedSession.endSession "again" 42).is_terminal = true ∧
    (exampleEndedSession.endSession "again" 42).ended_at = some 42 ∧
    (exampleEndedSession.endSession "again" 42).end_reason = some "again" ∧
    (exampleEndedSession.endSession "again" 42).ended_at ≠ none :=
  C5_end_not_idempotent exampleEndedSession rfl "again" 42

/-- Claim C7, counterexample: `"Connection misconfigured"` matches both
a network rule (`connection`) and the config rule (`config`), and the
spec's reference cascade therefore classifies it as
`provider.network_error`; but the code checks the config rule *before*
the network rule and returns `provider.misconfigured`. -/
theorem C7_cascade_counterexample :
    strIn "connection" (strLower "Connection misconfigured") = true ∧
    strIn "config" (strLower "Connection misconfigured") = true ∧
    classifyErrorSpecOrder "Connection misconfigured"
      = ProviderErrorCategory.NETWORK_ERROR ∧
    classify_error "Connection misconfigured"
      = ProviderErrorCategory.MISCONFIGURED ∧
    classify_error "Connection misconfigured"
      ≠ ProviderErrorCategory.NETWORK_ERROR := by
  refine ⟨?_, ?_, ?_, ?_, ?_⟩ <;> decide

/-- Claim C7, amended: the classifier is total — for every error message
it returns a category from the closed ten-element set (it cannot raise)
— but the case-insensitive substring rules are applied in the code's
order: auth/unauthorized/401, then config/misconfigured, then
network/timeout/connection, then busy/486, then no answer/480, then
reject/603, then rate limit/429/throttle, then capacity/503, else
unknown_error; hence an error message matching both a network rule and
the config rule classifies as `provider.misconfigured`. -/
theorem C7_classifier_total_code_order :
    (∀ e : String, classify_error e ∈ providerCategories) ∧
    classify_error "Connection misconfigured"
      = ProviderErrorCategory.MISCONFIGURED := by
  constructor
  · intro e
    simp only [classify_error]
    split_ifs <;> decide
  · decide

/-- Claim C2, counterexample: feeding the §8.1 webhook sequence, the
ingester emits `livekit.participant.joined` *after*
`session.state_changed` and `call.answered` (the handler emits the
joined event at the end of `_handle_participant_joined`), so the
claimed event order is not the one produced. -/
theorem C2_inbound_order_counterexample :
    inboundScenarioRun.emitted.map (fun e => e.event_type) =
      ["livekit.room.created", "call.started", "session.state_changed",
       "call.answered", "livekit.participant.joined",
       "livekit.participant.left", "call.ended"] ∧
    inboundScenarioRun.emitted.map (fun e => e.event_type)
      ≠ claimedInboundOrder := by
  refine ⟨by decide, by decide⟩

/-- Claim C2, amended: the §8.1 webhook sequence creates exactly one
session, inbound, with `caller_number` `+31600000001`, final state
`ended` with a non-null `ended_at`, and `end_reason` `participant_left`;
the emitted stream is, in order, `livekit.room.created`, `call.started`
(direction inbound), `session.state_changed{from:inbound_ringing,
to:connected}`, `call.answered`, `livekit.participant.joined`,
`livekit.participant.left`, `call.ended{reason:participant_left}` —
i.e. the claimed events with the joined event emitted after the
state-change pair, not before it. -/
theorem C2_inbound_happy_path :
    inboundScenarioRun.manager.sessions.length = 1 ∧
    (inboundScenarioRun.manager.sessions.map (fun s =>
        (s.direction, s.caller_number, s.state, s.end_reason,
         s.livekit_room, s.livekit_participant, s.ended_at.isSome))) =
      [("inbound", some "+31600000001", SessionState.ended,
        some "participant_left", some "call-abc", some "P1", true)] ∧
    (inboundScenarioRun.emitted.map (fun e =>
        (e.event_type, e.direction, e.from_state, e.to_state, e.reason))) =
      [("livekit.room.created", none, none, none, none),
       ("call.started", some "inbound", none, none, none),
       ("session.state_changed", none, some "inbound_ringing",
        some "connected", none),
       ("call.answered", none, none, none, none),
       ("livekit.participant.joined", none, none, none, none),
       ("livekit.participant.left", none, none, none, none),
       ("call.ended", none, none, none, some "participant_left")] := by
  refine ⟨by decide, by rfl, by decide⟩

/-- Claim C3, counterexample: when the turn starts because the agent
state became `thinking` and the final transcript is observed only
afterwards, the per-session stream contains, with the single turn id
`turn_1000` as correlation id, `turn.started` then `llm.request` then
`stt.final` — `stt.final` does not precede `turn.started`. -/
theorem C3_turn_order_counterexample :
    ((observerRun (initObserver "s1") thinkingFirstTrace).2.map (fun e =>
        (e.event_type, e.correlation_id))) =
      [("turn.started", "turn_1000"), ("llm.request", "turn_1000"),
       ("stt.final", "turn_1000")] ∧
    typesAmong ["stt.final", "turn.started", "llm.request"]
        (observerRun (initObserver "s1") thinkingFirstTrace).2
      ≠ ["stt.final", "turn.started", "llm.request"] := by
  refine ⟨by decide, by decide⟩

/-- Claim C3, amended: for a turn started by a final user transcript
(no turn current), the handler emits exactly `stt.final`, then
`turn.started`, then `llm.request`, all carrying the fresh turn id as
correlation id; for a turn started by the agent state becoming
`thinking`, it emits `turn.started` then `llm.request` with the turn id
and no `stt.final` — a transcript observed later in such a turn yields
its `stt.final` only after `llm.request`. -/
theorem C3_turn_start_order (st st' : ObserverState) (now now' : Nat)
    (text : String) (lang : Option String) (delay : Option Nat)
    (h : st.current_turn_id = none) :
    ((observerStep st now (.userInputTranscribed text lang delay)).2.map
        (fun e => (e.event_type, e.correlation_id))) =
      [("stt.final", "turn_" ++ toString now),
       ("turn.started", "turn_" ++ toString now),
       ("llm.request", "turn_" ++ toString now)] ∧
    ((observerStep st' now' (.agentStateChanged (some "thinking"))).2.map
        (fun e => (e.event_type, e.correlation_id))) =
      [("turn.started", "turn_" ++ toString now'),
       ("llm.request", "turn_" ++ toString now')] := by
  constructor
  · simp [observerStep, recordUserActivity, emitSttFinal, emitTurnStarted,
          newTurn, h]
  · simp [observerStep, emitTurnStarted, newTurn]

/-- Witness for C3's amended claim on fresh observers. -/
theorem C3_turn_start_order_witness :
    ((observerStep (initObserver "s1") 1000
        (.userInputTranscribed "hallo" (some "nl") none)).2.map
        (fun e => (e.event_type, e.correlation_id))) =
      [("stt.final", "turn_" ++ toString 1000),
       ("turn.started", "turn_" ++ toString 1000),
       ("llm.request", "turn_" ++ toString 1000)] ∧
    ((observerStep (initObserver "s2") 2000
        (.agentStateChanged (some "thinking"))).2.map
        (fun e => (e.event_type, e.correlation_id))) =
      [("turn.started", "turn_" ++ toString 2000),
       ("llm.request", "turn_" ++ toString 2000)] :=
  C3_turn_start_order (initObserver "s1") (initObserver "s2") 1000 2000
    "hallo" (some "nl") none rfl

/-- Claim C6, counterexample: when the transport reports
`agent_stopped_speaking{reason:barge_in}` without any user speech during
TTS playback, the Observer emits `tts.stopped{cause:barge_in}` with *no*
preceding `barge_in.detected` and *no* `time_to_tts_stop_ms` field. -/
theorem C6_barge_in_counterexample :
    (((observerRun (initObserver "s1") spuriousBargeInTrace).2.filter
        (fun e => e.event_type = "tts.stopped")).map (fun e =>
        (e.cause, e.time_to_tts_stop_ms))) =
      [(some "barge_in", none)] ∧
    ((observerRun (initObserver "s1") spuriousBargeInTrace).2.filter
        (fun e => e.event_type = "barge_in.detected")) = [] := by
  refine ⟨by decide, by decide⟩

/-- Claim C6, amended: when a barge-in actually occurs —
`user_started_speaking` arrives while TTS is playing — the Observer
immediately emits `barge_in.detected`, and the subsequent
`agent_stopped_speaking{reason:barge_in}` emits `tts.stopped` carrying
`cause:barge_in`, the same correlation id, and
`time_to_tts_stop_ms = t2 - t1`, non-negative whenever the clock is
monotone. -/
theorem C6_barge_in_measured (st : ObserverState) (t1 t2 : Nat)
    (h1 : st.tts_playing = true) (h2 : t1 ≤ t2) :
    ((observerStep st t1 .userStartedSpeaking).2 =
      [{ event_type := "barge_in.detected", session_id := st.session_id,
         correlation_id := st.current_turn_id.getD st.session_id }]) ∧
    (((observerStep (observerStep st t1 .userStartedSpeaking).1 t2
        (.agentStoppedSpeaking (some "barge_in"))).2.map (fun e =>
        (e.event_type, e.correlation_id, e.cause, e.time_to_tts_stop_ms))) =
      [("tts.stopped", st.current_turn_id.getD st.session_id,
        some "barge_in", some ((t2 : Int) - (t1 : Int)))]) ∧
    0 ≤ (t2 : Int) - (t1 : Int) := by
  refine ⟨?_, ?_, ?_⟩
  · simp [observerStep, recordUserActivity, h1]
  · simp [observerStep, recordUserActivity, h1]
  · omega

/-- Witness for C6's amended claim: the §8.5 scenario timings (TTS
playing, user speech at t=100, stop at t=180, measured stop time
80 ms). -/
theorem C6_barge_in_measured_witness :
    ((observerStep { initObserver "s1" with tts_playing := true } 100
        .userStartedSpeaking).2 =
      [{ event_type := "barge_in.detected", session_id := "s1",
         correlation_id := "s1" }]) ∧
    (((observerStep (observerStep
          { initObserver "s1" with tts_playing := true } 100
          .userStartedSpeaking).1 180
        (.agentStoppedSpeaking (some "barge_in"))).2.map (fun e =>
        (e.event_type, e.correlation_id, e.cause, e.time_to_tts_stop_ms))) =
      [("tts.stopped", "s1", some "barge_in", some ((180 : Int) - 100))]) ∧
    0 ≤ (180 : Int) - 100 :=
  C6_barge_in_measured { initObserver "s1" with tts_playing := true }
    100 180 rfl (by decide)

/-- Helper: an element appended at the end survives dropping at most
`xs.length` elements from the front. -/
theorem mem_drop_append_self {α : Type} (xs : List α) (a : α) (k : Nat)
    (h : k ≤ xs.length) : a ∈ (xs ++ [a]).drop k := by
  induction xs generalizing k with
  | nil =>
    have hk : k = 0 := Nat.le_zero.mp (by simpa using h)
    subst hk
    simp
  | cons x t ih =>
    cases k with
    | zero => simp
    | succ k =>
      simp only [List.cons_append, List.drop_succ_cons]
      exact ih k (Nat.le_of_succ_le_succ h)

/-- Helper: a stored event is in the ring afterwards whenever the ring
holds at least one event. -/
theorem EventStore.mem_store_self (st : EventStore) (e : ObsRecord)
    (h : 1 ≤ st.max_events) : e ∈ (st.store e).events := by
  unfold EventStore.store
  dsimp only
  split
  · apply mem_drop_append_self
    simp only [List.length_append, List.length_cons, List.length_nil]
    omega
  · simp

/-- Helper: an event in the ring is returned by an unbounded query on
its session id. -/
theorem EventStore.mem_query_session (st : EventStore) (e : ObsRecord)
    (he : e ∈ st.events) : e ∈ st.query (some e.session_id) := by
  unfold EventStore.query
  exact List.mem_filter.mpr ⟨he, by simp [queryMatches]⟩

/-- Claim C4, counterexample: the webhook ingester's emitter
(`control_plane/events.py`) writes its record to the structured sink but
never hands it to the event store — after it emits, the store is still
empty and a query for the session returns nothing, so the emitted event
is not retrievable. -/
theorem C4_cp_emitter_counterexample :
    (cpEmitWorld {} 5 "call.started" "sess_0" "info").stdout.length = 1 ∧
    (cpEmitWorld {} 5 "call.started" "sess_0" "info").store.events = [] ∧
    EventStore.query (cpEmitWorld {} 5 "call.started" "sess_0" "info").store
      (some "sess_0") = [] :=
  ⟨rfl, rfl, rfl⟩

/-- Claim C4, amended: the *observability* emitter
(`observability/events.py`) hands the same record it serialises to the
event store, and the record is afterwards retrievable by the store's
query operation; but the *control-plane* emitter
(`control_plane/events.py`), the one the webhook ingester uses, writes
only to the structured sink and leaves the event store untouched. -/
theorem C4_emit_feeds_store (env : EmitEnv) (store : EventStore)
    (component : String) (now : Nat) (ty sid sev : String)
    (corr : Option String) (pii : Option PiiBlock) (lat : Option Nat)
    (extra : List (String × String)) (h : 1 ≤ store.max_events)
    (w : EmitWorld) (now2 : Nat) (ty2 sid2 sev2 : String) :
    (obsEmit env store component now ty sid sev corr pii lat extra).1 =
      sinkLine env (emitRecord component now ty sid sev corr pii lat extra) ∧
    emitRecord component now ty sid sev corr pii lat extra ∈
      (obsEmit env store component now ty sid sev corr pii lat extra).2.events ∧
    emitRecord component now ty sid sev corr pii lat extra ∈
      EventStore.query
        (obsEmit env store component now ty sid sev corr pii lat extra).2
        (some sid) ∧
    (cpEmitWorld w now2 ty2 sid2 sev2).store = w.store := by
  refine ⟨rfl, ?_, ?_, rfl⟩
  · exact EventStore.mem_store_self store _ h
  · exact EventStore.mem_query_session _ _ (EventStore.mem_store_self store _ h)

/-- Witness for C4's amended claim on a concrete emit into an empty
store. -/
theorem C4_emit_feeds_store_witness :
    (obsEmit plainPipeEnv {} "control_plane" 5 "call.started" "sess_0"
        "info" none none none []).1 =
      sinkLine plainPipeEnv
        (emitRecord "control_plane" 5 "call.started" "sess_0" "info"
          none none none []) ∧
    emitRecord "control_plane" 5 "call.started" "sess_0" "info"
        none none none [] ∈
      (obsEmit plainPipeEnv {} "control_plane" 5 "call.started" "sess_0"
        "info" none none none []).2.events ∧
    emitRecord "control_plane" 5 "call.started" "sess_0" "info"
        none none none [] ∈
      EventStore.query
        (obsEmit plainPipeEnv {} "control_plane" 5 "call.started" "sess_0"
          "info" none none none []).2 (some "sess_0") ∧
    (cpEmitWorld {} 6 "call.answered" "sess_1" "info").store =
      ({} : EmitWorld).store :=
  C4_emit_feeds_store plainPipeEnv {} "control_plane" 5 "call.started"
    "sess_0" "info" none none none [] (by decide) {} 6 "call.answered"
    "sess_1" "info"

/-- Claim C8, confirmed: under a close-only policy
(`CLOSE_MS ≤ REPROMPT_MS`) and with no user activity since the last
agent prompt, one run of the user-silence timer never says
`"Ben je er nog?"`; it says the closing phrase, emits
`call.ended{reason:user_silence_timeout}`, requests hangup over HTTP,
and calls `aclose()` on the session object exactly when the hangup call
did not return 2xx. -/
theorem C8_close_only_policy (cfg : SilenceConfig) (env : TimerEnv)
    (sid corr : String) (t0 : Nat) (lastActivity : Option Nat)
    (hclose : cfg.user_silence_close_ms ≤ cfg.user_silence_reprompt_ms)
    (hsilent : isUserSilentSince lastActivity t0 = true)
    (hattached : env.session_attached = true) :
    ObsAction.say repromptPhrase ∉
      userSilenceTimerBody cfg env sid corr t0 lastActivity ∧
    userSilenceTimerBody cfg env sid corr t0 lastActivity =
      [ObsAction.say closingPhrase,
       ObsAction.emitEvent
         { event_type := "call.ended", session_id := sid,
           correlation_id := corr, reason := some "user_silence_timeout" },
       ObsAction.requestHangup sid]
      ++ (if env.hangup_ok then [] else [ObsAction.aclose]) := by
  have hbody : userSilenceTimerBody cfg env sid corr t0 lastActivity =
      [ObsAction.say closingPhrase,
       ObsAction.emitEvent
         { event_type := "call.ended", session_id := sid,
           correlation_id := corr, reason := some "user_silence_timeout" },
       ObsAction.requestHangup sid]
      ++ (if env.hangup_ok then [] else [ObsAction.aclose]) := by
    cases hok : env.hangup_ok <;>
      simp [userSilenceTimerBody, hclose, hsilent, closeDueToUserSilence,
            hattached, hok]
  refine ⟨?_, hbody⟩
  rw [hbody]
  cases env.hangup_ok <;> simp <;> decide

/-- Witness for C8 at the claim's thresholds (`REPROMPT_MS=7000`,
`CLOSE_MS=1000`), a silent user and a failing hangup call. -/
theorem C8_close_only_policy_witness :
    ObsAction.say repromptPhrase ∉
      userSilenceTimerBody
        { user_silence_reprompt_ms := 7000, user_silence_close_ms := 1000 }
        { hangup_ok := false } "s1" "s1" 50 none ∧
    userSilenceTimerBody
        { user_silence_reprompt_ms := 7000, user_silence_close_ms := 1000 }
        { hangup_ok := false } "s1" "s1" 50 none =
      [ObsAction.say closingPhrase,
       ObsAction.emitEvent
         { event_type := "call.ended", session_id := "s1",
           correlation_id := "s1", reason := some "user_silence_timeout" },
       ObsAction.requestHangup "s1"]
      ++ (if ({ hangup_ok := false } : TimerEnv).hangup_ok then []
          else [ObsAction.aclose]) :=
  C8_close_only_policy
    { user_silence_reprompt_ms := 7000, user_silence_close_ms := 1000 }
    { hangup_ok := false } "s1" "s1" 50 none (by decide) rfl rfl

/-- Claim C10, confirmed: the hangup handler never touches the session
registry — for every request (whether the provider delete-room call
succeeds or raises) the registry is identical before and after; the
response is `200 {status:"ok"}` or `502 {detail:"hangup_failed"}`
accordingly, and the only effects are the provider delete-room call on
the session id and the `control.command_received` /
`control.command_applied` events handed to the emitter (which stores
them). -/
theorem C10_hangup_never_touches_registry (env : EmitEnv) (st : ApiState)
    (sid : String) (now cmd_ms : Nat) (ok : Bool) (ecls : String) :
    (hangup_call env st sid now cmd_ms ok ecls).2.manager = st.manager ∧
    (hangup_call env st sid now cmd_ms ok ecls).1 =
      (if ok then (200, "\x7b\"status\":\"ok\"\x7d")
       else (502, "\x7b\"detail\":\"hangup_failed\"\x7d")) ∧
    (hangup_call env st sid now cmd_ms ok ecls).2.deleted_rooms =
      st.deleted_rooms ++ [sid] ∧
    (hangup_call env st sid now cmd_ms ok ecls).2.world.store =
      (st.world.store.store
        (emitRecord "control_plane" now "control.command_received" sid
          "info" (some ("cmd_" ++ toString cmd_ms)) none none
          [("command", jsonStr "call.hangup")])).store
        (emitRecord "control_plane" now "control.command_applied" sid
          (if ok then "info" else "error")
          (some ("cmd_" ++ toString cmd_ms)) none none
          (if ok then
            [("command", jsonStr "call.hangup"), ("result", jsonStr "ok")]
           else
            [("command", jsonStr "call.hangup"), ("result", jsonStr "error"),
             ("error_class", jsonStr ecls)])) := by
  cases ok <;> exact ⟨rfl, rfl, rfl, rfl⟩

set_option maxRecDepth 40000 in
/-- Claim C9, counterexample: with the sink *not* a TTY and `NO_COLOR`
unset, the claim says the sink line is the JSON record with
`latency_ms` unmodified — but the emitted line differs from the plain
serialisation: it contains the ANSI colour prefix and the ` ms` suffix,
because the code's colour condition contains `or True`. -/
theorem C9_sink_rewrite_counterexample :
    sinkLine plainPipeEnv latencyExampleRecord
      ≠ renderJson latencyExampleRecord ∧
    strIn ORANGE (sinkLine plainPipeEnv latencyExampleRecord) = true ∧
    strIn " ms" (sinkLine plainPipeEnv latencyExampleRecord) = true ∧
    (EventStore.store {} latencyExampleRecord).events =
      [latencyExampleRecord] := by
  refine ⟨by decide, by decide, by decide, rfl⟩

set_option maxRecDepth 40000 in
/-- Claim C9, amended: the record stored and returned by queries keeps
`latency_ms` as a plain integer, but for every environment the line
written to the structured sink is rewritten whenever `latency_ms` is
present: the colour predicate ignores the TTY entirely and equals
"`NO_COLOR` not set" (the code computes
`(is_tty or force_color or True) and not no_color`), so the sink line
never equals the plain JSON serialisation. -/
theorem C9_latency_plain_in_store_rewritten_in_sink (env : EmitEnv) :
    useColor env = !env.no_color ∧
    sinkLine env latencyExampleRecord ≠ renderJson latencyExampleRecord ∧
    EventStore.query (EventStore.store {} latencyExampleRecord)
        (some "s1") = [latencyExampleRecord] ∧
    latencyExampleRecord.latency_ms = some 12 := by
  obtain ⟨t, nc, f⟩ := env
  refine ⟨by simp [useColor], ?_, rfl, rfl⟩
  cases t <;> cases nc <;> cases f <;> decide

end Spraak
